import Mathlib

/-!
Verification development for the TriviaGame chat-bot plugin
(`src/main.py`).  The plugin's per-group game lifecycle, fuzzy answer
matching, reward capping, hint dispensing and timeout handling are
embedded shallowly below; theorems `C1` .. `C10` settle the frozen
specification claims.
-/

namespace TriviaGame

set_option maxRecDepth 10000

/-! ### Python string helpers -/

/-- Python `str.lower()`: character-wise lowering (ASCII letters; other
characters, e.g. CJK, are unchanged, as in the source's inputs). -/
def pyLower (s : String) : String := ⟨s.data.map Char.toLower⟩

/-- Python `str.strip()`: remove whitespace characters from both ends. -/
def pyStrip (s : String) : String :=
  ⟨((s.data.dropWhile Char.isWhitespace).reverse.dropWhile Char.isWhitespace).reverse⟩

/-! ### difflib.SequenceMatcher (no junk: both inputs are short strings)

`find_longest_match` scans rows `i` over `a`, keeping the Python dict
`j2len` as a total function defaulting to `0`.  `matchSum` adds the sizes
of all matching blocks (the recursion of `get_matching_blocks`), which is
exactly what `ratio()` consumes. -/

/-- Inner loop of `find_longest_match` for a fixed row `i` whose character
is `c`: scan `j` upward, extending runs recorded in the previous row's
`j2len` map `old`; `nj` is the row being built, `best` is
`(besti, bestj, bestsize)`. -/
def flmRow (b : List Char) (c : Char) (i : Nat) (old : Nat → Nat) :
    Nat → Nat → (Nat → Nat) → Nat × Nat × Nat → ((Nat → Nat) × (Nat × Nat × Nat))
  | _, 0, nj, best => (nj, best)
  | j, steps+1, nj, best =>
    if b.get? j = some c then
      let k := (if j = 0 then 0 else old (j-1)) + 1
      let best2 := if best.2.2 < k then (i+1-k, j+1-k, k) else best
      flmRow b c i old (j+1) steps (fun x => if x = j then k else nj x) best2
    else
      flmRow b c i old (j+1) steps nj best

/-- Outer loop of `find_longest_match`: one call of `flmRow` per index `i`
of `a` inside `[alo, ahi)`. -/
def flmRows (a b : List Char) (blo bhi : Nat) :
    Nat → Nat → (Nat → Nat) → Nat × Nat × Nat → Nat × Nat × Nat
  | _, 0, _, best => best
  | i, steps+1, j2len, best =>
    match a.get? i with
    | some c =>
      let r := flmRow b c i j2len blo (bhi - blo) (fun _ => 0) best
      flmRows a b blo bhi (i+1) steps r.1 r.2
    | none => best

/-- The function `SequenceMatcher.find_longest_match` on the ranges
`a[alo:ahi]`, `b[blo:bhi]`. -/
def find_longest_match (a b : List Char) (alo ahi blo bhi : Nat) : Nat × Nat × Nat :=
  flmRows a b blo bhi alo (ahi - alo) (fun _ => 0) (alo, blo, 0)

/-- Total size of the matching blocks of the ranges, with explicit fuel
(each recursive call shrinks the combined range, so the initial fuel in
`matchSum` always suffices). -/
def matchSumAux (a b : List Char) : Nat → Nat → Nat → Nat → Nat → Nat
  | 0, _, _, _, _ => 0
  | fuel+1, alo, ahi, blo, bhi =>
    let m := find_longest_match a b alo ahi blo bhi
    if m.2.2 = 0 then 0
    else matchSumAux a b fuel alo m.1 blo m.2.1 + m.2.2 +
         matchSumAux a b fuel (m.1 + m.2.2) ahi (m.2.1 + m.2.2) bhi

/-- Total number of matched characters over the whole strings. -/
def matchSum (a b : List Char) : Nat :=
  matchSumAux a b (a.length + b.length + 1) 0 a.length 0 b.length

/-- The value `SequenceMatcher(None, a, b).ratio()` as an exact rational:
`2*M / (len a + len b)`, and `1` for two empty strings. -/
def smRatio (a b : String) : Rat :=
  let m := matchSum a.data b.data
  let t := a.data.length + b.data.length
  if t = 0 then 1 else mkRat (Int.ofNat (2 * m)) t

/-- The constant `SIMILARITY_THRESHOLD = 0.85` from `check_answer_hook`. -/
def SIMILARITY_THRESHOLD : Rat := mkRat 85 100

/-- Python `str(a).lower().strip()`, the normalisation applied to every
candidate answer in `check_answer_hook`. -/
def normalizeCandidate (a : String) : String := pyStrip (pyLower a)

/-- Lines 102–114 of `check_answer_hook`: the submitted text (already
stripped) is lowered; correct iff it is literally one of the normalised
candidates, or some candidate reaches the similarity threshold. -/
def is_match (user_answer_text : String) (answers : List String) : Bool :=
  let correct_answers := answers.map normalizeCandidate
  let user_answer_lower := pyLower user_answer_text
  correct_answers.contains user_answer_lower ||
    correct_answers.any (fun c => decide (SIMILARITY_THRESHOLD ≤ smRatio user_answer_lower c))

/-- The best-match loop of lines 154–160: fold over the original answers,
keeping the answer with the strictly highest similarity to the lowered
user text (initial `matched_answer = ""`, `highest_sim = 0.0`). -/
def best_match (user_answer_lower : String) (answers : List String) : String :=
  (answers.foldl
    (fun acc ans =>
      let sim := smRatio user_answer_lower (normalizeCandidate ans)
      if acc.2 < sim then (ans, sim) else acc)
    (("", (0 : Rat)))).1

/-! ### Python dict helpers (insertion-ordered association lists) -/

/-- Assignment `d[k] = v`: replace in place if the key exists, else append. -/
def dictSet {α : Type} (d : List (String × α)) (k : String) (v : α) :
    List (String × α) :=
  if (List.lookup k d).isSome then
    d.map (fun p => if p.1 = k then (k, v) else p)
  else d ++ [(k, v)]

/-- Deletion `del d[k]` (no error if absent — all call sites guard membership). -/
def dictDel {α : Type} (d : List (String × α)) (k : String) :
    List (String × α) :=
  d.filter (fun p => ¬ p.1 = k)

/-! ### Data model -/

/-- The validated structured question object produced by `start_game`
(all four required keys present). -/
structure QuestionData where
  answers : List String
  hints : List String
  description : String
  difficulty : String
deriving DecidableEq

/-- Class `GameState` from `main.py`: per-group game record.  The
`asyncio.Task` handle is abstracted to the one observation the plugin
makes of it, `timeout_task.done()`. -/
structure GameState where
  question_data : QuestionData
  hints_given : Nat
  timeout_done : Bool
  is_active : Bool
deriving DecidableEq

/-- One entry of `self.daily_rewards`: `{"date": ..., "total": ...}`. -/
structure DailyReward where
  date : String
  total : Int
deriving DecidableEq

/-- The plugin's mutable fields: the game store, the per-user daily
reward counters, and whether `self.economy_api` resolved (truthy). -/
structure PluginState where
  game_states : List (String × GameState)
  daily_rewards : List (String × DailyReward)
  economy_ready : Bool
deriving DecidableEq

/-- The observable data of an incoming message event. -/
structure HookInput where
  group_id : Option String
  sender_id : String
  sender_name : String
  message_str : String
deriving DecidableEq

/-! ### Message texts -/

def capMsg : String := "今日奖励已达上限啦！"

def grantMsg (n : Int) : String := s!"恭喜获得 {n} 金币！"

def successText (winner_name matched_answer reward_message : String) : String :=
  "🎉 恭喜 @" ++ winner_name ++ " 回答正确！\n" ++
  "💡 正确答案就是：【" ++ matched_answer ++ "】\n" ++
  "😎 " ++ reward_message

def wrongText (t : String) : String := s!"🤔 “{t}”似乎不是正确答案哦，再想想吧！"

def revealAnswers (answers : List String) : String :=
  String.intercalate "、" answers

def timeoutText (answers : List String) : String :=
  "⌛️ 时间到！很遗憾没有人答出来呢。\n" ++
  "公布答案：【" ++ revealAnswers answers ++ "】\n" ++
  "下次继续努力哦！"

def endText (ender_name : String) (answers : List String) : String :=
  "应 @" ++ ender_name ++ " 的要求，本轮猜题已提前结束。\n" ++
  "正确答案是：【" ++ revealAnswers answers ++ "】"

def exhaustedMsg : String := "🤔 所有的提示都已经给完啦，靠你自己咯！"

def hintText (num : Nat) (hint : String) : String :=
  s!"🤫 提示来啦 (第{num}条)：\n{hint}"

def noGameMsg : String := "当前没有正在进行的猜题游戏哦。"

def alreadyActiveMsg : String := "当前群里已经有一个猜题游戏正在进行啦！"

def GAME_TIMEOUT_SECONDS : Nat := 60

/-! ### Reward block (lines 122–145 of `check_answer_hook`) -/

/-- Outcome of the reward block: the `reward_message` local, the updated
`self.daily_rewards`, the `add_coins` calls issued, and whether the
`add_coins` await raised (propagating out of the hook). -/
structure RewardOutcome where
  reward_message : String
  daily : List (String × DailyReward)
  calls : List (String × Int × String)
  raised : Bool
deriving DecidableEq

/-- Lines 123–145.  Note the Python aliasing: when the user already has a
counter entry, the in-place date reset (lines 131–133) mutates the stored
dict even on paths that never write `self.daily_rewards[winner_id]`. -/
def rewardBlock (daily : List (String × DailyReward)) (today winner_id : String)
    (hints_given : Nat) (add_coins_raises : Bool) : RewardOutcome :=
  let final_reward : Int := 100 / 2 ^ hints_given
  let existed := (List.lookup winner_id daily).isSome
  let d0 := (List.lookup winner_id daily).getD ⟨"", 0⟩
  let d1 := if d0.date ≠ today then (⟨today, 0⟩ : DailyReward) else d0
  let daily1 := if existed then dictSet daily winner_id d1 else daily
  let remaining_limit : Int := 1000 - d1.total
  let actual_reward := min final_reward remaining_limit
  if 0 < actual_reward then
    if add_coins_raises then
      ⟨"", daily1, [(winner_id, actual_reward, "猜题游戏胜利")], true⟩
    else
      ⟨grantMsg actual_reward,
        dictSet daily1 winner_id ⟨d1.date, d1.total + actual_reward⟩,
        [(winner_id, actual_reward, "猜题游戏胜利")], false⟩
  else
    ⟨capMsg, daily1, [], false⟩

/-! ### check_answer_hook -/

/-- Observable outcome of one `check_answer_hook` invocation.
`removed_state` records the game record at the moment it is deleted from
the store (specification ghost; `none` when nothing was settled). -/
structure HookResult where
  st : PluginState
  add_coins_calls : List (String × Int × String)
  sent : List String
  stopped : Bool
  timeout_cancelled : Bool
  raised : Bool
  removed_state : Option GameState
deriving DecidableEq

/-- The silent-return paths of the hook. -/
def noEffect (ps : PluginState) : HookResult :=
  ⟨ps, [], [], false, false, false, none⟩

/-- Tail of the correct-answer branch after the reward block `ro`: a
raised `add_coins` aborts everything that follows; otherwise the timeout
task is cancelled, the success message sent, the record deleted and the
event stopped. -/
def settleFinish (ps : PluginState) (gid : String) (state : GameState)
    (sender_name user_answer_lower : String) (ro : RewardOutcome) : HookResult :=
  if ro.raised then
    ⟨⟨ps.game_states, ro.daily, ps.economy_ready⟩, ro.calls, [], false, false, true, none⟩
  else
    ⟨⟨dictDel ps.game_states gid, ro.daily, ps.economy_ready⟩, ro.calls,
      [successText sender_name
        (best_match user_answer_lower state.question_data.answers) ro.reward_message],
      true, !state.timeout_done, false, some state⟩

/-- Lines 116–170: the correct-answer branch.  The reward block runs
only when the economy collaborator resolved (`if self.economy_api:`);
otherwise `reward_message` stays the empty string. -/
def settleCorrect (ps : PluginState) (today gid : String) (state : GameState)
    (sender_id sender_name user_answer_lower : String)
    (add_coins_raises : Bool) : HookResult :=
  settleFinish ps gid state sender_name user_answer_lower
    (if ps.economy_ready then
      rewardBlock ps.daily_rewards today sender_id state.hints_given add_coins_raises
     else ⟨"", ps.daily_rewards, [], false⟩)

/-- Hook `check_answer_hook` (lines 88–174), with `today` the value of
`datetime.now().strftime("%Y-%m-%d")` and `add_coins_raises` whether the
external `add_coins` call raises. -/
def check_answer_hook (ps : PluginState) (today : String) (inp : HookInput)
    (add_coins_raises : Bool) : HookResult :=
  match inp.group_id with
  | none => noEffect ps
  | some gid =>
    match List.lookup gid ps.game_states with
    | none => noEffect ps
    | some state =>
      if state.is_active = false then noEffect ps
      else if pyStrip inp.message_str = "" then noEffect ps
      else if is_match (pyStrip inp.message_str) state.question_data.answers then
        settleCorrect ps today gid state inp.sender_id inp.sender_name
          (pyLower (pyStrip inp.message_str)) add_coins_raises
      else
        ⟨ps, [], [wrongText (pyStrip inp.message_str)], true, false, false, none⟩

/-! ### start_game (lines 176–248)

Randomness (topic, difficulty) and the LLM round trip are abstracted into
parameters: `provider` says whether `get_using_provider` returned one,
and `gen` is `some qd` when the `try` block of lines 223–230 produced a
parsed object with all four required keys, `none` when it raised
(LLM error, unparseable JSON, or a missing key). -/

structure StartResult where
  st : PluginState
  yielded : List String
deriving DecidableEq

def announceText (topic : String) (qd : QuestionData) : String :=
  "🎉 猜题游戏开始啦！(领域: " ++ topic ++ " | 难度: " ++ qd.difficulty ++ ")\n" ++
  "--------------------\n" ++
  "题目：\n" ++ qd.description ++ "\n" ++
  "--------------------\n" ++
  "⏱️ 你有 " ++ toString GAME_TIMEOUT_SECONDS ++ " 秒的时间回答！\n" ++
  "👉 直接在群里说出你的答案即可！\n" ++
  "💡 仍然可以使用 `/提示` 或 `/结束答题`。"

def start_game (ps : PluginState) (group_id : Option String) (provider : Bool)
    (gen : Option QuestionData) (topic : String) : StartResult :=
  match group_id with
  | none => ⟨ps, ["这个游戏只能在群聊里玩哦～"]⟩
  | some gid =>
    let activeHere :=
      match List.lookup gid ps.game_states with
      | some st => st.is_active
      | none => false
    if activeHere then ⟨ps, [alreadyActiveMsg]⟩
    else
      let m1 := "正在随机挑选领域和难度，请稍等..."
      if provider = false then
        ⟨ps, [m1, "哎呀，获取大语言模型失败了，暂时无法出题。"]⟩
      else
        match gen with
        | none => ⟨ps, [m1, "糟糕，我想题目的时候走神了，没想好。再试一次吧！"]⟩
        | some qd =>
          ⟨⟨dictSet ps.game_states gid ⟨qd, 0, false, true⟩,
              ps.daily_rewards, ps.economy_ready⟩,
            [m1, announceText topic qd]⟩

/-! ### end_game (lines 251–272) -/

structure EndResult where
  game_states : List (String × GameState)
  yielded : List String
  timeout_cancelled : Bool
  removed_state : Option GameState
deriving DecidableEq

def end_game (gs : List (String × GameState)) (group_id : Option String)
    (ender_name : String) : EndResult :=
  match group_id with
  | none => ⟨gs, [noGameMsg], false, none⟩
  | some gid =>
    match List.lookup gid gs with
    | none => ⟨gs, [noGameMsg], false, none⟩
    | some state =>
      if state.is_active = false then ⟨gs, [noGameMsg], false, none⟩
      else
        ⟨dictDel gs gid,
          [endText ender_name state.question_data.answers],
          !state.timeout_done, some state⟩

/-! ### get_hint (lines 274–290) -/

structure HintResult where
  game_states : List (String × GameState)
  yielded : List String
deriving DecidableEq

def get_hint (gs : List (String × GameState)) (group_id : Option String) : HintResult :=
  match group_id with
  | none => ⟨gs, []⟩
  | some gid =>
    match List.lookup gid gs with
    | none => ⟨gs, []⟩
    | some state =>
      if state.is_active = false then ⟨gs, []⟩
      else if state.hints_given < state.question_data.hints.length then
        ⟨dictSet gs gid { state with hints_given := state.hints_given + 1 },
          [hintText (state.hints_given + 1)
            (state.question_data.hints.getD state.hints_given "")]⟩
      else
        ⟨gs, [exhaustedMsg]⟩

/-- Iterate `get_hint` `n` times on one group, collecting the yields. -/
def runHints (gs : List (String × GameState)) (gid : String) :
    Nat → List (String × GameState) × List String
  | 0 => (gs, [])
  | n+1 =>
    let r := get_hint gs (some gid)
    let rest := runHints r.game_states gid n
    (rest.1, r.yielded ++ rest.2)

/-! ### _game_timeout (lines 292–315)

The coroutine either reaches the end of its sleep (`fires`), is cancelled
while sleeping (`cancelled` — the `except asyncio.CancelledError` arm,
which logs only), or hits some other exception inside the `try`
(`errors` — the `except Exception` arm, which force-removes the record
if present; the claim under test concerns only that removal). -/

inductive TimeoutRun
  | fires
  | cancelled
  | errors
deriving DecidableEq

structure TimeoutResult where
  game_states : List (String × GameState)
  broadcasts : List String
  removed_state : Option GameState
deriving DecidableEq

def game_timeout (gs : List (String × GameState)) (gid : String) :
    TimeoutRun → TimeoutResult
  | .fires =>
    match List.lookup gid gs with
    | some state =>
      if state.is_active then
        ⟨dictDel gs gid, [timeoutText state.question_data.answers], some state⟩
      else ⟨gs, [], none⟩
    | none => ⟨gs, [], none⟩
  | .cancelled => ⟨gs, [], none⟩
  | .errors =>
    if (List.lookup gid gs).isSome then
      ⟨dictDel gs gid, [], List.lookup gid gs⟩
    else ⟨gs, [], none⟩

/-! ### Interleaved operation sequences -/

/-- Any one plugin entry point, with its abstracted environment data. -/
inductive Op
  | answer (today : String) (inp : HookInput) (add_coins_raises : Bool)
  | start (group_id : Option String) (provider : Bool)
      (gen : Option QuestionData) (topic : String)
  | hint (group_id : Option String)
  | endgame (group_id : Option String) (ender_name : String)
  | timeout (gid : String) (run : TimeoutRun)

/-- State transition of one operation (ignoring its output). -/
def runOp (ps : PluginState) : Op → PluginState
  | .answer today inp ac => (check_answer_hook ps today inp ac).st
  | .start g p gen t => (start_game ps g p gen t).st
  | .hint g => { ps with game_states := (get_hint ps.game_states g).game_states }
  | .endgame g n => { ps with game_states := (end_game ps.game_states g n).game_states }
  | .timeout g r => { ps with game_states := (game_timeout ps.game_states g r).game_states }

/-- Run a whole sequence of operations. -/
def runOps (ps : PluginState) (ops : List Op) : PluginState :=
  ops.foldl runOp ps

/-! ### Spec-side matcher (for the refinement claim C2) -/

/-- Modelled from the spec's words: normalise both sides (trim, lower),
then exact equality against some candidate, or similarity ratio at least
0.85 against some candidate. -/
def specCorrect (ans : String) (cands : List String) : Prop :=
  (∃ c ∈ cands, pyLower (pyStrip ans) = normalizeCandidate c) ∨
  (∃ c ∈ cands, SIMILARITY_THRESHOLD ≤ smRatio (pyLower (pyStrip ans)) (normalizeCandidate c))

/-! ### Daily-cap invariant material (C10) -/

/-- Every stored daily counter is between 0 and the 1000-coin cap. -/
def dailyOK (d : List (String × DailyReward)) : Prop :=
  ∀ p ∈ d, 0 ≤ p.2.total ∧ p.2.total ≤ 1000

/-- The `actual_reward = min(final_reward, remaining_limit)` value the
reward block computes for a user against a counter store (after the
day-change reset). -/
def actualRewardAt (daily : List (String × DailyReward)) (today uid : String)
    (hg : Nat) : Int :=
  min ((100 : Int) / 2 ^ hg)
    (1000 -
      (if ((List.lookup uid daily).getD ⟨"", 0⟩).date ≠ today then (0 : Int)
       else ((List.lookup uid daily).getD ⟨"", 0⟩).total))

/-! ### Store lemmas -/

theorem lookup_dictDel {α : Type} (d : List (String × α)) (k : String) :
    List.lookup k (dictDel d k) = none := by
  induction d with
  | nil => rfl
  | cons p t ih =>
    by_cases h : p.1 = k
    · simpa [dictDel, List.filter, h] using ih
    · have hstep : dictDel (p :: t) k = p :: dictDel t k := by
        simp [dictDel, List.filter, h]
      rw [hstep]
      obtain ⟨pk, pv⟩ := p
      have hbk : (k == pk) = false := by
        simp only [ne_eq] at h
        exact beq_eq_false_iff_ne.mpr (fun e => h e.symm)
      rw [List.lookup, hbk]
      exact ih

theorem mem_dictSet {α : Type} {d : List (String × α)} {k : String} {v : α}
    {p : String × α} (hp : p ∈ dictSet d k v) : p = (k, v) ∨ p ∈ d := by
  unfold dictSet at hp
  split at hp
  · rcases List.mem_map.mp hp with ⟨q, hq, hfq⟩
    by_cases hk : q.1 = k
    · rw [if_pos hk] at hfq
      exact Or.inl hfq.symm
    · rw [if_neg hk] at hfq
      exact Or.inr (hfq ▸ hq)
  · rcases List.mem_append.mp hp with h | h
    · exact Or.inr h
    · exact Or.inl (List.mem_singleton.mp h)

theorem mem_of_lookup {α : Type} {d : List (String × α)} {k : String} {v : α}
    (h : List.lookup k d = some v) : (k, v) ∈ d := by
  induction d with
  | nil => simp [List.lookup] at h
  | cons p t ih =>
    obtain ⟨pk, pv⟩ := p
    rw [List.lookup] at h
    cases hb : (k == pk) with
    | true =>
      rw [hb] at h
      simp only [Option.some_inj] at h
      rw [beq_iff_eq.mp hb, ← h]
      exact List.mem_cons_self _ _
    | false =>
      rw [hb] at h
      exact List.mem_cons_of_mem _ (ih h)

/-! ### C2: fuzzy answer matching -/

/-- C2.  A submitted non-empty answer is judged correct exactly when,
after normalising both sides, it equals some candidate or reaches the
0.85 similarity threshold against some candidate; the three spec
examples behave as stated. -/
theorem C2_answer_matching :
    (∀ (ans : String) (cands : List String), pyStrip ans ≠ "" →
      (is_match (pyStrip ans) cands = true ↔ specCorrect ans cands))
    ∧ is_match (pyStrip "人工智能") ["人工智能", "AI"] = true
    ∧ is_match (pyStrip "artificial inteligence") ["Artificial Intelligence"] = true
    ∧ is_match (pyStrip "dog") ["cat"] = false := by
  refine ⟨?_, by decide, by decide, by decide⟩
  intro ans cands _h
  unfold is_match specCorrect
  simp only [Bool.or_eq_true, List.contains, List.elem_iff, List.mem_map,
    List.any_eq_true, decide_eq_true_eq]
  constructor
  · rintro (⟨c, hc, he⟩ | ⟨x, ⟨c, hc, rfl⟩, hr⟩)
    · exact Or.inl ⟨c, hc, he.symm⟩
    · exact Or.inr ⟨c, hc, hr⟩
  · rintro (⟨c, hc, he⟩ | ⟨c, hc, hr⟩)
    · exact Or.inl ⟨c, hc, he.symm⟩
    · exact Or.inr ⟨_, ⟨c, hc, rfl⟩, hr⟩

/-- Witness for C2 at a concrete input. -/
theorem C2_answer_matching_witness :
    is_match (pyStrip " dog ") ["cat"] = true ↔ specCorrect " dog " ["cat"] :=
  C2_answer_matching.1 " dog " ["cat"] (by decide)

/-! ### C5: failed starts leave the store untouched -/

/-- C5.  A start command with a game already active fails with the
already-active message and changes nothing; when the provider is absent
or question generation fails, the store is unchanged and (when the game
guard passed) the caller receives the generic failure message. -/
theorem C5_start_no_mutation_on_failure :
    (∀ (ps : PluginState) (gid : String) (st : GameState) (provider : Bool)
        (gen : Option QuestionData) (topic : String),
      List.lookup gid ps.game_states = some st → st.is_active = true →
        start_game ps (some gid) provider gen topic = ⟨ps, [alreadyActiveMsg]⟩)
    ∧ (∀ (ps : PluginState) (g : Option String) (provider : Bool)
        (gen : Option QuestionData) (topic : String),
      provider = false ∨ gen = none →
        (start_game ps g provider gen topic).st = ps)
    ∧ (∀ (ps : PluginState) (gid : String) (topic : String),
      List.lookup gid ps.game_states = none →
        start_game ps (some gid) true none topic =
          ⟨ps, ["正在随机挑选领域和难度，请稍等...",
                "糟糕，我想题目的时候走神了，没想好。再试一次吧！"]⟩) := by
  refine ⟨?_, ?_, ?_⟩
  · intro ps gid st provider gen topic hl ha
    simp [start_game, hl, ha]
  · intro ps g provider gen topic hfail
    cases g with
    | none => simp [start_game]
    | some gid =>
      simp only [start_game]
      cases hl : List.lookup gid ps.game_states with
      | none =>
        simp only [hl]
        rcases hfail with h | h
        · simp [h]
        · subst h
          cases provider <;> simp
      | some st =>
        simp only [hl]
        by_cases hst : st.is_active = true
        · simp [hst]
        · simp only [if_neg hst]
          rcases hfail with h | h
          · simp [h]
          · subst h
            cases provider <;> simp
  · intro ps gid topic hl
    simp [start_game, hl]

/-- Witness for C5 at concrete inputs. -/
theorem C5_start_no_mutation_on_failure_witness :
    start_game ⟨[("g", ⟨⟨["a"], [], "", ""⟩, 0, false, true⟩)], [], true⟩
        (some "g") true none "t"
      = ⟨⟨[("g", ⟨⟨["a"], [], "", ""⟩, 0, false, true⟩)], [], true⟩,
          [alreadyActiveMsg]⟩ :=
  C5_start_no_mutation_on_failure.1
    ⟨[("g", ⟨⟨["a"], [], "", ""⟩, 0, false, true⟩)], [], true⟩
    "g" ⟨⟨["a"], [], "", ""⟩, 0, false, true⟩ true none "t" (by decide) rfl

/-! ### C3: timeout semantics -/

/-- C3.  The game duration is the fixed 60 seconds; when the timer fires
on a live record it broadcasts the reveal message exactly once and
removes the record; a cancelled timer has no effect at all; any other
exception during timeout handling still leaves the group without a
record. -/
theorem C3_timeout :
    GAME_TIMEOUT_SECONDS = 60
    ∧ (∀ (gs : List (String × GameState)) (gid : String) (st : GameState),
        List.lookup gid gs = some st → st.is_active = true →
          (game_timeout gs gid .fires).broadcasts =
              [timeoutText st.question_data.answers]
            ∧ List.lookup gid (game_timeout gs gid .fires).game_states = none)
    ∧ (∀ (gs : List (String × GameState)) (gid : String),
        game_timeout gs gid .cancelled = ⟨gs, [], none⟩)
    ∧ (∀ (gs : List (String × GameState)) (gid : String),
        List.lookup gid (game_timeout gs gid .errors).game_states = none) := by
  refine ⟨rfl, ?_, fun gs gid => rfl, ?_⟩
  · intro gs gid st hl ha
    simp [game_timeout, hl, ha, lookup_dictDel]
  · intro gs gid
    simp only [game_timeout]
    cases hl : List.lookup gid gs with
    | none => simp [hl]
    | some st => simp [hl, lookup_dictDel]

/-- Witness for C3 at a concrete input. -/
theorem C3_timeout_witness :
    (game_timeout [("g", ⟨⟨["a"], [], "", ""⟩, 0, false, true⟩)] "g" .fires).broadcasts
        = [timeoutText ["a"]]
      ∧ List.lookup "g"
          (game_timeout [("g", ⟨⟨["a"], [], "", ""⟩, 0, false, true⟩)] "g"
            .fires).game_states = none :=
  C3_timeout.2.1 [("g", ⟨⟨["a"], [], "", ""⟩, 0, false, true⟩)] "g"
    ⟨⟨["a"], [], "", ""⟩, 0, false, true⟩ (by decide) rfl

/-! ### C4: settlement and the active flag -/

/-- C4 (amended).  Settlement never sets the active flag to false: each
settlement path (correct answer, explicit end, timeout firing) removes a
record that is still marked active at the moment of removal, and after a
timeout settles a live record the group has no record at all. -/
theorem C4_soft_delete_is_removal :
    (∀ (ps : PluginState) (today : String) (inp : HookInput) (ac : Bool)
        (s : GameState),
      (check_answer_hook ps today inp ac).removed_state = some s →
        s.is_active = true)
    ∧ (∀ (gs : List (String × GameState)) (g : Option String) (n : String)
        (s : GameState),
      (end_game gs g n).removed_state = some s → s.is_active = true)
    ∧ (∀ (gs : List (String × GameState)) (gid : String) (s : GameState),
      (game_timeout gs gid .fires).removed_state = some s → s.is_active = true)
    ∧ (∀ (gs : List (String × GameState)) (gid : String) (st : GameState),
      List.lookup gid gs = some st → st.is_active = true →
        List.lookup gid (game_timeout gs gid .fires).game_states = none
        ∧ (game_timeout gs gid .fires).removed_state = some st) := by
  have hfin : ∀ (ps : PluginState) (gid : String) (state : GameState)
      (sname ual : String) (ro : RewardOutcome) (s : GameState),
      (settleFinish ps gid state sname ual ro).removed_state = some s → s = state := by
    intro ps gid state sname ual ro s h
    unfold settleFinish at h
    split at h
    · simp at h
    · simpa using h.symm
  refine ⟨?_, ?_, ?_, ?_⟩
  · intro ps today inp ac s h
    unfold check_answer_hook at h
    split at h
    · simp [noEffect] at h
    · split at h
      · simp [noEffect] at h
      · next state _hl =>
        split at h
        · simp [noEffect] at h
        · next hact =>
          split at h
          · simp [noEffect] at h
          · split at h
            · unfold settleCorrect at h
              have hs : state.is_active = true := by
                revert hact
                cases state.is_active <;> simp
              exact (hfin _ _ _ _ _ _ _ h) ▸ hs
            · simp at h
  · intro gs g n s h
    unfold end_game at h
    split at h
    · simp at h
    · split at h
      · simp at h
      · next state _hl =>
        split at h
        · simp at h
        · next hact =>
          have hs : state.is_active = true := by
            revert hact
            cases state.is_active <;> simp
          simp only [Option.some_inj] at h
          exact h.symm ▸ hs
  · intro gs gid s h
    simp only [game_timeout] at h
    split at h
    · next state _hl =>
      split at h
      · next hact =>
        simp only [Option.some_inj] at h
        exact h.symm ▸ hact
      · simp at h
    · simp at h
  · intro gs gid st hl ha
    simp [game_timeout, hl, ha, lookup_dictDel]

/-- Witness for C4 at a concrete input. -/
theorem C4_soft_delete_is_removal_witness :
    List.lookup "g"
        (game_timeout [("g", ⟨⟨["a"], [], "", ""⟩, 0, false, true⟩)] "g"
          .fires).game_states = none
    ∧ (game_timeout [("g", ⟨⟨["a"], [], "", ""⟩, 0, false, true⟩)] "g"
          .fires).removed_state = some ⟨⟨["a"], [], "", ""⟩, 0, false, true⟩ :=
  C4_soft_delete_is_removal.2.2.2 [("g", ⟨⟨["a"], [], "", ""⟩, 0, false, true⟩)]
    "g" ⟨⟨["a"], [], "", ""⟩, 0, false, true⟩ (by decide) rfl

/-- C4 counterexample: settling a concrete game (here by the end
command) removes the record while its active flag is still `true`; the
flag never becomes `false` anywhere — the store is simply left empty. -/
theorem C4_flag_never_false_counterexample :
    (end_game [("g", ⟨⟨["a"], [], "", ""⟩, 0, false, true⟩)] (some "g")
        "u").removed_state = some ⟨⟨["a"], [], "", ""⟩, 0, false, true⟩
    ∧ (end_game [("g", ⟨⟨["a"], [], "", ""⟩, 0, false, true⟩)] (some "g")
        "u").game_states = [] := by decide

/-! ### C9: hint dispensing -/

theorem get_hint_step_lt (gid : String) (qd : QuestionData) (td : Bool) (g : Nat)
    (h : g < qd.hints.length) :
    get_hint [(gid, ⟨qd, g, td, true⟩)] (some gid) =
      ⟨[(gid, ⟨qd, g + 1, td, true⟩)], [hintText (g + 1) (qd.hints.getD g "")]⟩ := by
  simp [get_hint, List.lookup, dictSet, h]

theorem get_hint_step_ge (gid : String) (qd : QuestionData) (td : Bool) (g : Nat)
    (h : ¬ g < qd.hints.length) :
    get_hint [(gid, ⟨qd, g, td, true⟩)] (some gid) =
      ⟨[(gid, ⟨qd, g, td, true⟩)], [exhaustedMsg]⟩ := by
  simp [get_hint, List.lookup, h]

theorem runHints_spec (gid : String) (qd : QuestionData) (td : Bool) :
    ∀ (i g : Nat), g ≤ qd.hints.length →
      runHints [(gid, ⟨qd, g, td, true⟩)] gid i =
        ([(gid, ⟨qd, min (g + i) qd.hints.length, td, true⟩)],
          (List.range (min i (qd.hints.length - g))).map
              (fun j => hintText (g + j + 1) (qd.hints.getD (g + j) "")) ++
            List.replicate (i - (qd.hints.length - g)) exhaustedMsg) := by
  intro i
  induction i with
  | zero =>
    intro g hg
    simp [runHints, Nat.min_eq_left hg]
  | succ i ih =>
    intro g hg
    by_cases h : g < qd.hints.length
    · rw [runHints, get_hint_step_lt gid qd td g h]
      rw [ih (g + 1) (Nat.succ_le_of_lt h)]
      have e1 : g + 1 + i = g + (i + 1) := by omega
      have e2 : min (i + 1) (qd.hints.length - g) =
          min i (qd.hints.length - (g + 1)) + 1 := by omega
      rw [e1, e2, List.range_succ_eq_map, List.map_cons, List.map_map]
      simp only [List.cons_append]
      have e3 : (fun j => hintText (g + j + 1) (qd.hints.getD (g + j) "")) ∘ Nat.succ
          = fun j => hintText (g + 1 + j + 1) (qd.hints.getD (g + 1 + j) "") := by
        funext j
        have e4 : g + Nat.succ j = g + 1 + j := by omega
        simp only [Function.comp_apply, e4]
      have e5 : i + 1 - (qd.hints.length - g) =
          i - (qd.hints.length - (g + 1)) := by omega
      rw [e3, e5]
      simp
    · rw [runHints, get_hint_step_ge gid qd td g h]
      rw [ih g hg]
      have h0 : qd.hints.length - g = 0 := by omega
      have e1 : min (g + i) qd.hints.length = qd.hints.length := by omega
      have e2 : min (g + (i + 1)) qd.hints.length = qd.hints.length := by omega
      rw [h0, e1, e2]
      simp [List.replicate_succ]

/-- C9.  From a fresh game with `n` hints, the first `n` hint commands
return the hints one at a time in list order with `hints_given`
incrementing, every further call yields the exhausted message without
incrementing, `hints_given` stays within `[0, n]`, and the record stays
present and active throughout. -/
theorem C9_hint_dispensing (gid : String) (qd : QuestionData) (td : Bool) (i : Nat) :
    runHints [(gid, ⟨qd, 0, td, true⟩)] gid i =
      ([(gid, ⟨qd, min i qd.hints.length, td, true⟩)],
        (List.range (min i qd.hints.length)).map
            (fun j => hintText (j + 1) (qd.hints.getD j "")) ++
          List.replicate (i - qd.hints.length) exhaustedMsg)
    ∧ min i qd.hints.length ≤ qd.hints.length := by
  have h := runHints_spec gid qd td i 0 (Nat.zero_le _)
  simp only [Nat.zero_add, Nat.sub_zero] at h
  exact ⟨h, Nat.min_le_right _ _⟩

/-! ### The correct-answer path with a singleton store -/

theorem hook_correct_branch (gid uid uname msg today : String) (qd : QuestionData)
    (hg : Nat) (td : Bool) (daily : List (String × DailyReward)) (econ ac : Bool)
    (hne : pyStrip msg ≠ "") (hmatch : is_match (pyStrip msg) qd.answers = true) :
    check_answer_hook ⟨[(gid, ⟨qd, hg, td, true⟩)], daily, econ⟩ today
        ⟨some gid, uid, uname, msg⟩ ac
      = settleFinish ⟨[(gid, ⟨qd, hg, td, true⟩)], daily, econ⟩ gid ⟨qd, hg, td, true⟩
          uname (pyLower (pyStrip msg))
          (if econ then rewardBlock daily today uid hg ac
           else ⟨"", daily, [], false⟩) := by
  simp [check_answer_hook, settleCorrect, List.lookup, hne, hmatch]

theorem rewardBlock_same_day (uid today : String) (t : Int) (hg : Nat) (ac : Bool) :
    rewardBlock [(uid, ⟨today, t⟩)] today uid hg ac =
      if 0 < min ((100 : Int) / 2 ^ hg) (1000 - t) then
        if ac then
          ⟨"", [(uid, ⟨today, t⟩)],
            [(uid, min ((100 : Int) / 2 ^ hg) (1000 - t), "猜题游戏胜利")], true⟩
        else
          ⟨grantMsg (min ((100 : Int) / 2 ^ hg) (1000 - t)),
            [(uid, ⟨today, t + min ((100 : Int) / 2 ^ hg) (1000 - t)⟩)],
            [(uid, min ((100 : Int) / 2 ^ hg) (1000 - t), "猜题游戏胜利")], false⟩
      else ⟨capMsg, [(uid, ⟨today, t⟩)], [], false⟩ := by
  by_cases hpos : 0 < min ((100 : Int) / 2 ^ hg) (1000 - t) <;>
    cases ac <;> simp [rewardBlock, List.lookup, dictSet, hpos]

/-! ### C1: reward amount, cap, and the single coin-issuance call -/

/-- C1.  On a settled correct answer with the economy present, `h` hints
given and same-day total `t`, the granted amount is
`max 0 (min (100 / 2^h) (1000 - t))`; exactly one `add_coins` call is
issued when it is positive, and no call is made with the cap message
shown when it is zero. -/
theorem C1_reward_computation (gid uid uname msg today : String) (qd : QuestionData)
    (hg : Nat) (t : Int) (td : Bool)
    (hne : pyStrip msg ≠ "") (hmatch : is_match (pyStrip msg) qd.answers = true) :
    (check_answer_hook ⟨[(gid, ⟨qd, hg, td, true⟩)], [(uid, ⟨today, t⟩)], true⟩ today
        ⟨some gid, uid, uname, msg⟩ false).add_coins_calls
      = (if 0 < max 0 (min ((100 : Int) / 2 ^ hg) (1000 - t)) then
          [(uid, max 0 (min ((100 : Int) / 2 ^ hg) (1000 - t)), "猜题游戏胜利")]
        else [])
    ∧ (check_answer_hook ⟨[(gid, ⟨qd, hg, td, true⟩)], [(uid, ⟨today, t⟩)], true⟩ today
        ⟨some gid, uid, uname, msg⟩ false).sent
      = [successText uname (best_match (pyLower (pyStrip msg)) qd.answers)
          (if 0 < max 0 (min ((100 : Int) / 2 ^ hg) (1000 - t)) then
            grantMsg (max 0 (min ((100 : Int) / 2 ^ hg) (1000 - t)))
          else capMsg)] := by
  rw [hook_correct_branch gid uid uname msg today qd hg td _ true false hne hmatch]
  simp only [if_pos rfl]
  rw [rewardBlock_same_day]
  by_cases hpos : 0 < min ((100 : Int) / 2 ^ hg) (1000 - t)
  · have hmax : max 0 (min ((100 : Int) / 2 ^ hg) (1000 - t))
        = min ((100 : Int) / 2 ^ hg) (1000 - t) := max_eq_right hpos.le
    simp [settleFinish, hpos, hmax]
  · have hmax : max 0 (min ((100 : Int) / 2 ^ hg) (1000 - t)) = 0 :=
      max_eq_left (le_of_not_lt hpos)
    simp [settleFinish, hpos, hmax]

/-- Witness for C1 at a concrete input. -/
theorem C1_reward_computation_witness :
    (check_answer_hook ⟨[("g", ⟨⟨["cat"], [], "", ""⟩, 0, false, true⟩)],
        [("u", ⟨"2025-10-04", (0 : Int)⟩)], true⟩ "2025-10-04"
        ⟨some "g", "u", "n", "cat"⟩ false).add_coins_calls
      = (if 0 < max 0 (min ((100 : Int) / 2 ^ 0) (1000 - 0)) then
          [("u", max 0 (min ((100 : Int) / 2 ^ 0) (1000 - 0)), "猜题游戏胜利")]
        else [])
    ∧ (check_answer_hook ⟨[("g", ⟨⟨["cat"], [], "", ""⟩, 0, false, true⟩)],
        [("u", ⟨"2025-10-04", (0 : Int)⟩)], true⟩ "2025-10-04"
        ⟨some "g", "u", "n", "cat"⟩ false).sent
      = [successText "n" (best_match (pyLower (pyStrip "cat")) ["cat"])
          (if 0 < max 0 (min ((100 : Int) / 2 ^ 0) (1000 - 0)) then
            grantMsg (max 0 (min ((100 : Int) / 2 ^ 0) (1000 - 0)))
          else capMsg)] :=
  C1_reward_computation "g" "u" "n" "cat" "2025-10-04" ⟨["cat"], [], "", ""⟩ 0 0 false
    (by decide) (by decide)

/-! ### C6: a raising economy call propagates out of the hook -/

/-- C6 (amended).  When the external `add_coins` call raises on a
positive grant, the exception propagates out of `check_answer_hook`:
the call was attempted, but the daily counter is not updated, no message
is sent, the event is not stopped, the timeout is not cancelled, and the
record stays in the store — the game does not resolve as solved. -/
theorem C6_reward_failure_propagates (gid uid uname msg today : String)
    (qd : QuestionData) (hg : Nat) (t : Int) (td : Bool)
    (hne : pyStrip msg ≠ "") (hmatch : is_match (pyStrip msg) qd.answers = true)
    (hpos : 0 < min ((100 : Int) / 2 ^ hg) (1000 - t)) :
    check_answer_hook ⟨[(gid, ⟨qd, hg, td, true⟩)], [(uid, ⟨today, t⟩)], true⟩ today
        ⟨some gid, uid, uname, msg⟩ true
      = ⟨⟨[(gid, ⟨qd, hg, td, true⟩)], [(uid, ⟨today, t⟩)], true⟩,
          [(uid, min ((100 : Int) / 2 ^ hg) (1000 - t), "猜题游戏胜利")],
          [], false, false, true, none⟩ := by
  rw [hook_correct_branch gid uid uname msg today qd hg td _ true true hne hmatch]
  simp only [if_pos rfl]
  rw [rewardBlock_same_day]
  simp [settleFinish, hpos]

/-- Witness for C6 at a concrete input. -/
theorem C6_reward_failure_propagates_witness :
    check_answer_hook ⟨[("g", ⟨⟨["cat"], [], "", ""⟩, 0, false, true⟩)],
        [("u", ⟨"2025-10-04", (0 : Int)⟩)], true⟩ "2025-10-04"
        ⟨some "g", "u", "n", "cat"⟩ true
      = ⟨⟨[("g", ⟨⟨["cat"], [], "", ""⟩, 0, false, true⟩)],
            [("u", ⟨"2025-10-04", (0 : Int)⟩)], true⟩,
          [("u", min ((100 : Int) / 2 ^ 0) (1000 - 0), "猜题游戏胜利")],
          [], false, false, true, none⟩ :=
  C6_reward_failure_propagates "g" "u" "n" "cat" "2025-10-04" ⟨["cat"], [], "", ""⟩
    0 0 false (by decide) (by decide) (by decide)

/-- C6 counterexample: on a concrete correct answer with a raising
economy call, no success message is sent, the timeout is not cancelled,
and the record is still in the store — refuting that the game still
resolves as solved. -/
theorem C6_game_not_resolved_counterexample :
    (check_answer_hook ⟨[("g", ⟨⟨["cat"], [], "", ""⟩, 0, false, true⟩)],
        [("u", ⟨"2025-10-04", (0 : Int)⟩)], true⟩ "2025-10-04"
        ⟨some "g", "u", "n", "cat"⟩ true).sent = []
    ∧ List.lookup "g"
        (check_answer_hook ⟨[("g", ⟨⟨["cat"], [], "", ""⟩, 0, false, true⟩)],
          [("u", ⟨"2025-10-04", (0 : Int)⟩)], true⟩ "2025-10-04"
          ⟨some "g", "u", "n", "cat"⟩ true).st.game_states
        = some ⟨⟨["cat"], [], "", ""⟩, 0, false, true⟩
    ∧ (check_answer_hook ⟨[("g", ⟨⟨["cat"], [], "", ""⟩, 0, false, true⟩)],
        [("u", ⟨"2025-10-04", (0 : Int)⟩)], true⟩ "2025-10-04"
        ⟨some "g", "u", "n", "cat"⟩ true).timeout_cancelled = false
    ∧ (check_answer_hook ⟨[("g", ⟨⟨["cat"], [], "", ""⟩, 0, false, true⟩)],
        [("u", ⟨"2025-10-04", (0 : Int)⟩)], true⟩ "2025-10-04"
        ⟨some "g", "u", "n", "cat"⟩ true).raised = true := by decide

/-! ### C7: economy collaborator unavailable -/

/-- C7 (amended).  With the economy collaborator unresolved, a correct
answer computes no reward and leaves every daily counter untouched, and
the success message carries an empty reward segment (it does not mention
rewards at all); the game still settles. -/
theorem C7_economy_unavailable (gid uid uname msg today : String)
    (qd : QuestionData) (hg : Nat) (daily : List (String × DailyReward)) (td : Bool)
    (hne : pyStrip msg ≠ "") (hmatch : is_match (pyStrip msg) qd.answers = true) :
    check_answer_hook ⟨[(gid, ⟨qd, hg, td, true⟩)], daily, false⟩ today
        ⟨some gid, uid, uname, msg⟩ false
      = ⟨⟨[], daily, false⟩, [],
          [successText uname (best_match (pyLower (pyStrip msg)) qd.answers) ""],
          true, !td, false, some ⟨qd, hg, td, true⟩⟩ := by
  rw [hook_correct_branch gid uid uname msg today qd hg td daily false false hne hmatch]
  simp [settleFinish, dictDel]

/-- Witness for C7 at a concrete input. -/
theorem C7_economy_unavailable_witness :
    check_answer_hook ⟨[("g", ⟨⟨["cat"], [], "", ""⟩, 0, false, true⟩)],
        [("u", ⟨"2025-10-03", (700 : Int)⟩)], false⟩ "2025-10-04"
        ⟨some "g", "u", "n", "cat"⟩ false
      = ⟨⟨[], [("u", ⟨"2025-10-03", (700 : Int)⟩)], false⟩, [],
          [successText "n" (best_match (pyLower (pyStrip "cat")) ["cat"]) ""],
          true, !false, false, some ⟨⟨["cat"], [], "", ""⟩, 0, false, true⟩⟩ :=
  C7_economy_unavailable "g" "u" "n" "cat" "2025-10-04" ⟨["cat"], [], "", ""⟩ 0
    [("u", ⟨"2025-10-03", (700 : Int)⟩)] false (by decide) (by decide)

/-- C7 counterexample: the concrete success message sent while the
economy is unavailable is the plain congratulation with an empty tail —
it contains no mention of rewards (the characters 奖励 appear nowhere in
it), so it does not indicate that rewards are disabled. -/
theorem C7_no_disabled_notice_counterexample :
    (check_answer_hook ⟨[("g", ⟨⟨["cat"], [], "", ""⟩, 0, false, true⟩)], [], false⟩
        "2025-10-04" ⟨some "g", "u", "n", "cat"⟩ false).sent
      = [successText "n" "cat" ""]
    ∧ ¬ List.IsInfix "奖励".data (successText "n" "cat" "").data := by decide

/-! ### C8: stale daily counters reset before the grant -/

/-- C8.  A stored counter whose date is not today behaves exactly like a
counter reset to `(today, 0)`: the whole hook outcome (grant, calls,
messages, stores) coincides with the reset run. -/
theorem C8_daily_reset (gid uid uname msg today d0 : String) (t0 : Int)
    (qd : QuestionData) (hg : Nat) (td ac : Bool)
    (hd : d0 ≠ today) (hne : pyStrip msg ≠ "")
    (hmatch : is_match (pyStrip msg) qd.answers = true) :
    check_answer_hook ⟨[(gid, ⟨qd, hg, td, true⟩)], [(uid, ⟨d0, t0⟩)], true⟩ today
        ⟨some gid, uid, uname, msg⟩ ac
      = check_answer_hook ⟨[(gid, ⟨qd, hg, td, true⟩)], [(uid, ⟨today, 0⟩)], true⟩ today
          ⟨some gid, uid, uname, msg⟩ ac := by
  rw [hook_correct_branch gid uid uname msg today qd hg td _ true ac hne hmatch,
    hook_correct_branch gid uid uname msg today qd hg td _ true ac hne hmatch]
  have hrb : rewardBlock [(uid, ⟨d0, t0⟩)] today uid hg ac
      = rewardBlock [(uid, ⟨today, 0⟩)] today uid hg ac := by
    simp [rewardBlock, List.lookup, dictSet, hd]
  rw [hrb]
  simp [settleFinish]

/-- Witness for C8 at the spec's own example: yesterday's counter at the
full cap of 1000 behaves like a fresh zero counter today. -/
theorem C8_daily_reset_witness :
    check_answer_hook ⟨[("g", ⟨⟨["cat"], [], "", ""⟩, 0, false, true⟩)],
        [("u", ⟨"2025-10-03", (1000 : Int)⟩)], true⟩ "2025-10-04"
        ⟨some "g", "u", "n", "cat"⟩ false
      = check_answer_hook ⟨[("g", ⟨⟨["cat"], [], "", ""⟩, 0, false, true⟩)],
          [("u", ⟨"2025-10-04", (0 : Int)⟩)], true⟩ "2025-10-04"
          ⟨some "g", "u", "n", "cat"⟩ false :=
  C8_daily_reset "g" "u" "n" "cat" "2025-10-04" "2025-10-03" 1000
    ⟨["cat"], [], "", ""⟩ 0 false false (by decide) (by decide) (by decide)

/-! ### C10: the daily total never exceeds the cap -/

theorem dailyOK_dictSet {daily : List (String × DailyReward)} {k : String}
    {v : DailyReward} (hOK : dailyOK daily) (hv : 0 ≤ v.total ∧ v.total ≤ 1000) :
    dailyOK (dictSet daily k v) := by
  intro p hp
  rcases mem_dictSet hp with rfl | hp'
  · exact hv
  · exact hOK p hp'

theorem getD_total_bounds (daily : List (String × DailyReward)) (uid : String)
    (hOK : dailyOK daily) :
    0 ≤ ((List.lookup uid daily).getD ⟨"", 0⟩).total
      ∧ ((List.lookup uid daily).getD ⟨"", 0⟩).total ≤ 1000 := by
  cases hl : List.lookup uid daily with
  | none => simp
  | some v => simpa using hOK (uid, v) (mem_of_lookup hl)

theorem grant_total_bounds {T A : Int} (hT0 : 0 ≤ T) (hT1 : T ≤ 1000) (hA : 0 ≤ A) :
    0 ≤ T + min A (1000 - T) ∧ T + min A (1000 - T) ≤ 1000 := by
  have h1 := min_le_right A (1000 - T)
  have h2 : 0 ≤ min A (1000 - T) := le_min hA (by omega)
  constructor <;> omega

theorem rewardBlock_dailyOK (daily : List (String × DailyReward))
    (today uid : String) (hg : Nat) (ac : Bool) (hOK : dailyOK daily) :
    dailyOK (rewardBlock daily today uid hg ac).daily := by
  obtain ⟨hb0, hb1⟩ := getD_total_bounds daily uid hOK
  have hA : (0 : Int) ≤ 100 / 2 ^ hg := by positivity
  simp only [rewardBlock]
  split_ifs <;>
    first
      | exact hOK
      | exact dailyOK_dictSet hOK ⟨le_refl 0, by norm_num⟩
      | exact dailyOK_dictSet hOK ⟨hb0, hb1⟩
      | exact dailyOK_dictSet (dailyOK_dictSet hOK ⟨le_refl 0, by norm_num⟩)
          (grant_total_bounds (le_refl 0) (by norm_num) hA)
      | exact dailyOK_dictSet (dailyOK_dictSet hOK ⟨hb0, hb1⟩)
          (grant_total_bounds hb0 hb1 hA)
      | exact dailyOK_dictSet hOK (grant_total_bounds (le_refl 0) (by norm_num) hA)
      | exact dailyOK_dictSet hOK (grant_total_bounds hb0 hb1 hA)

theorem settleFinish_daily (ps : PluginState) (gid : String) (state : GameState)
    (sname ual : String) (ro : RewardOutcome) :
    (settleFinish ps gid state sname ual ro).st.daily_rewards = ro.daily := by
  unfold settleFinish
  split <;> rfl

theorem hook_dailyOK (ps : PluginState) (today : String) (inp : HookInput)
    (ac : Bool) (hOK : dailyOK ps.daily_rewards) :
    dailyOK (check_answer_hook ps today inp ac).st.daily_rewards := by
  unfold check_answer_hook
  split
  · exact hOK
  · split
    · exact hOK
    · split
      · exact hOK
      · split
        · exact hOK
        · split
          · unfold settleCorrect
            rw [settleFinish_daily]
            split
            · exact rewardBlock_dailyOK _ _ _ _ _ hOK
            · exact hOK
          · exact hOK

theorem start_game_daily (ps : PluginState) (g : Option String) (p : Bool)
    (gen : Option QuestionData) (t : String) :
    (start_game ps g p gen t).st.daily_rewards = ps.daily_rewards := by
  cases g with
  | none => rfl
  | some gid =>
    simp only [start_game]
    cases hl : List.lookup gid ps.game_states with
    | none =>
      simp only [hl]
      cases p
      · simp
      · cases gen <;> simp
    | some st =>
      simp only [hl]
      by_cases hst : st.is_active = true
      · simp [hst]
      · simp only [if_neg hst]
        cases p
        · simp
        · cases gen <;> simp

theorem runOp_dailyOK (ps : PluginState) (op : Op)
    (hOK : dailyOK ps.daily_rewards) : dailyOK (runOp ps op).daily_rewards := by
  cases op with
  | answer today inp ac => exact hook_dailyOK ps today inp ac hOK
  | start g p gen t =>
    show dailyOK (start_game ps g p gen t).st.daily_rewards
    rw [start_game_daily]
    exact hOK
  | hint g => exact hOK
  | endgame g n => exact hOK
  | timeout g r => exact hOK

theorem runOps_dailyOK (ops : List Op) :
    ∀ (ps : PluginState), dailyOK ps.daily_rewards →
      dailyOK (runOps ps ops).daily_rewards := by
  induction ops with
  | nil => exact fun ps h => h
  | cons op rest ih => exact fun ps h => ih (runOp ps op) (runOp_dailyOK ps op h)

theorem actualRewardAt_nonneg (daily : List (String × DailyReward))
    (today uid : String) (hg : Nat) (hOK : dailyOK daily) :
    0 ≤ actualRewardAt daily today uid hg := by
  obtain ⟨hb0, hb1⟩ := getD_total_bounds daily uid hOK
  have hA : (0 : Int) ≤ 100 / 2 ^ hg := by positivity
  unfold actualRewardAt
  split_ifs
  · exact le_min hA (by omega)
  · exact le_min hA (by omega)

theorem rewardBlock_calls (daily : List (String × DailyReward))
    (today uid : String) (hg : Nat) (ac : Bool) :
    (rewardBlock daily today uid hg ac).calls =
      (if 0 < actualRewardAt daily today uid hg then
        [(uid, actualRewardAt daily today uid hg, "猜题游戏胜利")]
      else []) := by
  simp only [rewardBlock, actualRewardAt]
  split_ifs <;> simp_all

/-- C10.  Starting from the plugin's initial empty counter map, any
sequence of operations keeps every user's same-day total within
`[0, 1000]`; consequently the remaining limit is non-negative and the
`min(decayed, remaining)` grant the reward block computes — exactly the
amount it passes to `add_coins` when positive — is never negative. -/
theorem C10_daily_total_bounded (econ : Bool) (ops : List Op) :
    dailyOK (runOps ⟨[], [], econ⟩ ops).daily_rewards
    ∧ (∀ (today uid : String) (hg : Nat),
        0 ≤ actualRewardAt (runOps ⟨[], [], econ⟩ ops).daily_rewards today uid hg)
    ∧ (∀ (today uid : String) (hg : Nat) (ac : Bool),
        (rewardBlock (runOps ⟨[], [], econ⟩ ops).daily_rewards today uid hg ac).calls
          = (if 0 < actualRewardAt (runOps ⟨[], [], econ⟩ ops).daily_rewards today uid hg
              then [(uid,
                actualRewardAt (runOps ⟨[], [], econ⟩ ops).daily_rewards today uid hg,
                "猜题游戏胜利")]
             else [])) := by
  have h : dailyOK (runOps ⟨[], [], econ⟩ ops).daily_rewards :=
    runOps_dailyOK ops ⟨[], [], econ⟩ (fun p hp => absurd hp (List.not_mem_nil p))
  exact ⟨h, fun today uid hg => actualRewardAt_nonneg _ today uid hg h,
    fun today uid hg ac => rewardBlock_calls _ today uid hg ac⟩

end TriviaGame
